import Mathlib

/-!
Verification development for the multi-source academic-search aggregation core
(adapter contract, per-provider request/response mapping, merge/dedup algorithm).

Python dictionaries exchanged at the boundaries are modelled as association
lists of `String × PyVal` (`PyDict`); `dict.get(k, default)` is `pyGetD`.
Upstream HTTP calls are modelled as oracle parameters: an `HttpOutcome` value
stands for the response of `requests.get` (`raise` models a raised exception,
`resp status body` a returned response whose body either parsed, `some _`, or
failed to parse, `none`).  Functions that issue network requests return the
list of issued requests alongside their result, so that "no network call is
made" is expressible.
-/

/-- A JSON-ish Python value as it appears in the record dictionaries:
a string, `None`, an int, or a list of strings (`fieldsOfStudy`). -/
inductive PyVal where
  | vstr (s : String)
  | vnull
  | vint (n : Int)
  | vlistStr (xs : List String)
deriving DecidableEq, Repr

/-- A Python dict with the key types used by the records (first binding wins;
the code only ever builds literal dicts with distinct keys). -/
abbrev PyDict := List (String × PyVal)

/-- `d[k]` if the key is present. -/
def pyGet (d : PyDict) (k : String) : Option PyVal :=
  (d.find? (fun kv => kv.1 == k)).map (fun kv => kv.2)

/-- Python `d.get(k, dflt)`. -/
def pyGetD (d : PyDict) (k : String) (dflt : PyVal) : PyVal :=
  (pyGet d k).getD dflt

/-- Python `d.get(k, dflt)` where the stored value is a string.  For a
present non-string value this returns the default where Python would return
the raw value (and later crash on `.lower()`); the theorems about the merge
therefore carry a `wfRec` hypothesis restricting to string-or-absent keys. -/
def getStrD (d : PyDict) (k : String) (dflt : String) : String :=
  match pyGet d k with
  | some (.vstr s) => s
  | some _ => dflt
  | none => dflt

/-- Python `str(v)` for the values that can reach an f-string in the code. -/
def pyStrOf : PyVal → String
  | .vstr s => s
  | .vint n => toString n
  | .vnull => "None"
  | .vlistStr [] => "[]"
  | .vlistStr xs => "['" ++ String.intercalate "', '" xs ++ "']"

/-- Well-formedness of a record for the merge: its `id` and `title` values,
when present, are strings (the Python code would raise otherwise). -/
def wfRec (d : PyDict) : Bool :=
  (match pyGet d "id" with
   | some (.vstr _) => true
   | none => true
   | _ => false) &&
  (match pyGet d "title" with
   | some (.vstr _) => true
   | none => true
   | _ => false)

/-- Python `str.lower()`, character-wise (ASCII case mapping, which covers
the strings these claims exercise). -/
def pyLower (s : String) : String := String.mk (s.data.map Char.toLower)

/-- Python `str.strip()`: drop whitespace from both ends. -/
def pyStrip (s : String) : String :=
  String.mk (((s.data.dropWhile Char.isWhitespace).reverse.dropWhile
    Char.isWhitespace).reverse)

/-- `result.get("id", "")` in `merge_results_from_sources`. -/
def recId (r : PyDict) : String := getStrD r "id" ""

/-- `result.get("title", "").lower().strip()` in `merge_results_from_sources`. -/
def normTitle (r : PyDict) : String := pyStrip (pyLower (getStrD r "title" ""))

/-- One iteration of the inner loop of `merge_results_from_sources`
(src/utils/helpers.py): state is `(merged, seen_ids, seen_titles)`. -/
def mergeStep (st : List PyDict × List String × List String) (r : PyDict) :
    List PyDict × List String × List String :=
  let rid := recId r
  let t := normTitle r
  if rid ≠ "" ∧ rid ∈ st.2.1 then st
  else if t ≠ "" ∧ t ∈ st.2.2 then st
  else
    (st.1 ++ [r],
     (if rid ≠ "" then rid :: st.2.1 else st.2.1),
     (if t ≠ "" then t :: st.2.2 else st.2.2))

/-- `merge_results_from_sources` (src/utils/helpers.py lines 34-66): iterate
sources in mapping order, records in list order, deduplicating by non-empty id
then by non-empty normalized title. -/
def merge_results_from_sources (d : List (String × List PyDict)) : List PyDict :=
  (d.foldl (fun st p => p.2.foldl mergeStep st) ([], [], [])).1

/-- Folding `mergeStep` over a record list only appends records (a sublist of
the input), each appended record's non-empty id was unseen at entry, and the
seen sets only grow. -/
theorem foldl_mergeStep_ext (rs : List PyDict) :
    ∀ st : List PyDict × List String × List String,
    ∃ rest, (rs.foldl mergeStep st).1 = st.1 ++ rest ∧
      rest.Sublist rs ∧
      (∀ r ∈ rest, recId r ≠ "" → recId r ∉ st.2.1) ∧
      (∀ x ∈ st.2.1, x ∈ (rs.foldl mergeStep st).2.1) ∧
      (∀ x ∈ st.2.2, x ∈ (rs.foldl mergeStep st).2.2) := by
  induction rs with
  | nil =>
    intro st
    exact ⟨[], by simp, List.nil_sublist _, by simp, fun _ h => h, fun _ h => h⟩
  | cons r rs ih =>
    intro st
    simp only [List.foldl_cons]
    by_cases c1 : recId r ≠ "" ∧ recId r ∈ st.2.1
    · have hstep : mergeStep st r = st := by simp [mergeStep, c1]
      obtain ⟨rest, h1, h2, h3, h4, h5⟩ := ih (mergeStep st r)
      rw [hstep] at h1 h3 h4 h5
      exact ⟨rest, by rw [hstep]; exact h1, h2.trans (List.sublist_cons_self r rs), h3,
        by rw [hstep]; exact h4, by rw [hstep]; exact h5⟩
    · by_cases c2 : normTitle r ≠ "" ∧ normTitle r ∈ st.2.2
      · have hstep : mergeStep st r = st := by simp [mergeStep, c1, c2]
        obtain ⟨rest, h1, h2, h3, h4, h5⟩ := ih (mergeStep st r)
        rw [hstep] at h1 h3 h4 h5
        exact ⟨rest, by rw [hstep]; exact h1, h2.trans (List.sublist_cons_self r rs), h3,
          by rw [hstep]; exact h4, by rw [hstep]; exact h5⟩
      · have hstep : mergeStep st r =
            (st.1 ++ [r],
             (if recId r ≠ "" then recId r :: st.2.1 else st.2.1),
             (if normTitle r ≠ "" then normTitle r :: st.2.2 else st.2.2)) := by
          simp [mergeStep, c1, c2]
        obtain ⟨rest, h1, h2, h3, h4, h5⟩ := ih (mergeStep st r)
        refine ⟨r :: rest, ?_, h2.cons₂ r, ?_, ?_, ?_⟩
        · rw [h1, hstep]; simp
        · intro x hx hid
          rcases List.mem_cons.mp hx with hxr | hxrest
          · subst hxr
            intro hmem
            exact c1 ⟨hid, hmem⟩
          · intro hmem
            have hx3 := h3 x hxrest hid
            rw [hstep] at hx3
            apply hx3
            by_cases hr : recId r ≠ "" <;> simp [hr, hmem]
        · intro x hx
          apply h4
          rw [hstep]
          by_cases hr : recId r ≠ "" <;> simp [hr, hx]
        · intro x hx
          apply h5
          rw [hstep]
          by_cases hr : normTitle r ≠ "" <;> simp [hr, hx]

/-- Every record appended to the merged output has (when non-empty) its id
registered in the seen-identifiers set. -/
theorem foldl_mergeStep_invariant (rs : List PyDict) :
    ∀ st : List PyDict × List String × List String,
    (∀ a ∈ st.1, recId a ≠ "" → recId a ∈ st.2.1) →
    (∀ a ∈ (rs.foldl mergeStep st).1, recId a ≠ "" →
      recId a ∈ (rs.foldl mergeStep st).2.1) := by
  induction rs with
  | nil => exact fun st h => h
  | cons r rs ih =>
    intro st hst
    simp only [List.foldl_cons]
    apply ih (mergeStep st r)
    intro a ha hid
    by_cases c1 : recId r ≠ "" ∧ recId r ∈ st.2.1
    · have hstep : mergeStep st r = st := by simp [mergeStep, c1]
      rw [hstep] at ha ⊢
      exact hst a ha hid
    · by_cases c2 : normTitle r ≠ "" ∧ normTitle r ∈ st.2.2
      · have hstep : mergeStep st r = st := by simp [mergeStep, c1, c2]
        rw [hstep] at ha ⊢
        exact hst a ha hid
      · have hstep : mergeStep st r =
            (st.1 ++ [r],
             (if recId r ≠ "" then recId r :: st.2.1 else st.2.1),
             (if normTitle r ≠ "" then normTitle r :: st.2.2 else st.2.2)) := by
          simp [mergeStep, c1, c2]
        rw [hstep] at ha ⊢
        rcases List.mem_append.mp ha with hmem | hmem
        · have := hst a hmem hid
          by_cases hr : recId r ≠ "" <;> simp [hr, this]
        · have haeq : a = r := by simpa using hmem
          subst haeq
          simp [hid]

/-- Any record of a merged output originates in one of the per-source lists. -/
theorem merge_mem_of_mem (d : List (String × List PyDict)) :
    ∀ (st : List PyDict × List String × List String) (x : PyDict),
    x ∈ (d.foldl (fun st p => p.2.foldl mergeStep st) st).1 →
    x ∈ st.1 ∨ ∃ p ∈ d, x ∈ p.2 := by
  induction d with
  | nil => intro st x hx; exact Or.inl hx
  | cons p d ih =>
    intro st x hx
    simp only [List.foldl_cons] at hx
    have hx' := ih (p.2.foldl mergeStep st) x hx
    obtain ⟨rest, h1, h2, -, -, -⟩ := foldl_mergeStep_ext p.2 st
    rcases hx' with hmem | ⟨q, hq, hxq⟩
    · rw [h1] at hmem
      rcases List.mem_append.mp hmem with hmem | hmem
      · exact Or.inl hmem
      · exact Or.inr ⟨p, List.mem_cons_self p d, h2.subset hmem⟩
    · exact Or.inr ⟨q, List.mem_cons_of_mem p hq, hxq⟩

/-- Claim C1: the merge iterates sources in mapping order and records in list
order, skipping a record whose non-empty id (else non-empty normalized title)
was already seen and otherwise appending and registering it; consequently,
for a two-source mapping the merged output is the first source's merge
followed by a sublist of the second source's list none of whose records
shares an id with a (non-empty-id) retained record of the first source:
first-writer-wins, with the first source's records kept in their positions. -/
theorem merge_first_writer_wins (A B : String) (la lb : List PyDict)
    (hwa : ∀ r ∈ la, wfRec r = true) (hwb : ∀ r ∈ lb, wfRec r = true) :
    ∃ rest, merge_results_from_sources [(A, la), (B, lb)] =
        merge_results_from_sources [(A, la)] ++ rest ∧
      rest.Sublist lb ∧
      ∀ r ∈ rest, ∀ a ∈ merge_results_from_sources [(A, la)],
        recId a ≠ "" → recId r ≠ recId a := by
  have e1 : merge_results_from_sources [(A, la)] =
      (la.foldl mergeStep ([], [], [])).1 := by
    simp [merge_results_from_sources]
  have e2 : merge_results_from_sources [(A, la), (B, lb)] =
      (lb.foldl mergeStep (la.foldl mergeStep ([], [], []))).1 := by
    simp [merge_results_from_sources]
  obtain ⟨rest, h1, h2, h3, -, -⟩ :=
    foldl_mergeStep_ext lb (la.foldl mergeStep ([], [], []))
  have hinv := foldl_mergeStep_invariant la ([], [], []) (by simp)
  refine ⟨rest, ?_, h2, ?_⟩
  · rw [e2, e1, h1]
  · intro r hr a ha hid heq
    rw [e1] at ha
    have hrne : recId r ≠ "" := by rw [heq]; exact hid
    exact h3 r hr hrne (heq ▸ hinv a ha hid)

/-- Claim C1 witness: concrete two-source instance sharing an id. -/
theorem merge_first_writer_wins_witness :
    ∃ rest,
      merge_results_from_sources
          [("a", [[("id", PyVal.vstr "1"), ("title", PyVal.vstr "Alpha")]]),
           ("b", [[("id", PyVal.vstr "1"), ("title", PyVal.vstr "Beta")]])] =
        merge_results_from_sources
          [("a", [[("id", PyVal.vstr "1"), ("title", PyVal.vstr "Alpha")]])] ++ rest ∧
      rest.Sublist [[("id", PyVal.vstr "1"), ("title", PyVal.vstr "Beta")]] ∧
      ∀ r ∈ rest, ∀ a ∈ merge_results_from_sources
          [("a", [[("id", PyVal.vstr "1"), ("title", PyVal.vstr "Alpha")]])],
        recId a ≠ "" → recId r ≠ recId a :=
  merge_first_writer_wins "a" "b"
    [[("id", PyVal.vstr "1"), ("title", PyVal.vstr "Alpha")]]
    [[("id", PyVal.vstr "1"), ("title", PyVal.vstr "Beta")]]
    (by decide) (by decide)

/-- Two records that share neither a non-empty id nor a non-empty normalized
title (the "already deduplicated" relation of claim C9). -/
def mergeDistinct (a b : PyDict) : Prop :=
  (recId a ≠ "" → recId a ≠ recId b) ∧
  (normTitle a ≠ "" → normTitle a ≠ normTitle b)

instance (a b : PyDict) : Decidable (mergeDistinct a b) := by
  unfold mergeDistinct; infer_instance

/-- Folding `mergeStep` over a pairwise-distinct list whose keys are all fresh
for the incoming state appends the whole list unchanged. -/
theorem foldl_mergeStep_fresh (l : List PyDict) :
    ∀ st : List PyDict × List String × List String,
    (∀ r ∈ l, (recId r ≠ "" → recId r ∉ st.2.1) ∧
      (normTitle r ≠ "" → normTitle r ∉ st.2.2)) →
    l.Pairwise mergeDistinct →
    (l.foldl mergeStep st).1 = st.1 ++ l := by
  induction l with
  | nil => intro st _ _; simp
  | cons r l ih =>
    intro st hfresh hpair
    obtain ⟨hid, ht⟩ := hfresh r (List.mem_cons_self r l)
    have c1 : ¬(recId r ≠ "" ∧ recId r ∈ st.2.1) := fun h => hid h.1 h.2
    have c2 : ¬(normTitle r ≠ "" ∧ normTitle r ∈ st.2.2) := fun h => ht h.1 h.2
    have hstep : mergeStep st r =
        (st.1 ++ [r],
         (if recId r ≠ "" then recId r :: st.2.1 else st.2.1),
         (if normTitle r ≠ "" then normTitle r :: st.2.2 else st.2.2)) := by
      simp [mergeStep, c1, c2]
    have hpair' := List.pairwise_cons.mp hpair
    have hfresh' : ∀ x ∈ l, (recId x ≠ "" → recId x ∉ (mergeStep st r).2.1) ∧
        (normTitle x ≠ "" → normTitle x ∉ (mergeStep st r).2.2) := by
      intro x hx
      have hfx := hfresh x (List.mem_cons_of_mem r hx)
      have hrel := hpair'.1 x hx
      rw [hstep]
      dsimp only
      constructor
      · intro hxid hmem
        by_cases hr : recId r ≠ ""
        · rw [if_pos hr] at hmem
          rcases List.mem_cons.mp hmem with heq | hmem'
          · exact hrel.1 hr heq.symm
          · exact hfx.1 hxid hmem'
        · rw [if_neg hr] at hmem
          exact hfx.1 hxid hmem
      · intro hxt hmem
        by_cases hr : normTitle r ≠ ""
        · rw [if_pos hr] at hmem
          rcases List.mem_cons.mp hmem with heq | hmem'
          · exact hrel.2 hr heq.symm
          · exact hfx.2 hxt hmem'
        · rw [if_neg hr] at hmem
          exact hfx.2 hxt hmem
    simp only [List.foldl_cons]
    rw [ih (mergeStep st r) hfresh' hpair'.2, hstep]
    simp

/-- Claim C9: merging a single already-deduplicated source list (no two
records share a non-empty id, no two share a non-empty normalized title)
returns that list unchanged, in order. -/
theorem merge_single_source_identity (s : String) (l : List PyDict)
    (hwf : ∀ r ∈ l, wfRec r = true) (hpair : l.Pairwise mergeDistinct) :
    merge_results_from_sources [(s, l)] = l := by
  have e1 : merge_results_from_sources [(s, l)] =
      (l.foldl mergeStep ([], [], [])).1 := by
    simp [merge_results_from_sources]
  rw [e1, foldl_mergeStep_fresh l ([], [], []) (by simp) hpair]
  simp

/-- Claim C9 witness: a concrete two-record deduplicated list. -/
theorem merge_single_source_identity_witness :
    merge_results_from_sources
        [("arxiv",
          [[("id", PyVal.vstr "1"), ("title", PyVal.vstr "Alpha")],
           [("id", PyVal.vstr "2"), ("title", PyVal.vstr "Beta")]])] =
      [[("id", PyVal.vstr "1"), ("title", PyVal.vstr "Alpha")],
       [("id", PyVal.vstr "2"), ("title", PyVal.vstr "Beta")]] :=
  merge_single_source_identity "arxiv"
    [[("id", PyVal.vstr "1"), ("title", PyVal.vstr "Alpha")],
     [("id", PyVal.vstr "2"), ("title", PyVal.vstr "Beta")]]
    (by decide) (by decide)

/-- A record with empty id and empty normalized title is appended by every
step it meets and never registers anything, so its multiplicity is preserved
by the fold. -/
theorem foldl_mergeStep_count (r : PyDict)
    (h1 : recId r = "") (h2 : normTitle r = "") :
    ∀ (rs : List PyDict) (st : List PyDict × List String × List String),
    ((rs.foldl mergeStep st).1).count r = st.1.count r + rs.count r := by
  intro rs
  induction rs with
  | nil => intro st; simp
  | cons x rs ih =>
    intro st
    simp only [List.foldl_cons]
    by_cases c1 : recId x ≠ "" ∧ recId x ∈ st.2.1
    · have hstep : mergeStep st x = st := by simp [mergeStep, c1]
      have hbr : ¬(r = x) := fun h => c1.1 (by rw [← h, h1])
      rw [hstep, ih st]
      simp [List.count_cons, hbr]
    · by_cases c2 : normTitle x ≠ "" ∧ normTitle x ∈ st.2.2
      · have hstep : mergeStep st x = st := by simp [mergeStep, c1, c2]
        have hbr : ¬(r = x) := fun h => c2.1 (by rw [← h, h2])
        rw [hstep, ih st]
        simp [List.count_cons, hbr]
      · have hstep : mergeStep st x =
            (st.1 ++ [x],
             (if recId x ≠ "" then recId x :: st.2.1 else st.2.1),
             (if normTitle x ≠ "" then normTitle x :: st.2.2 else st.2.2)) := by
          simp [mergeStep, c1, c2]
        rw [ih (mergeStep st x), hstep]
        simp only [List.count_append, List.count_cons, List.count_nil]
        omega

/-- Multiplicity of an empty-keyed record across a whole sources mapping. -/
theorem merge_count_aux (r : PyDict)
    (h1 : recId r = "") (h2 : normTitle r = "") :
    ∀ (d : List (String × List PyDict))
      (st : List PyDict × List String × List String),
    ((d.foldl (fun st p => p.2.foldl mergeStep st) st).1).count r =
      st.1.count r + ((d.map Prod.snd).flatten).count r := by
  intro d
  induction d with
  | nil => intro st; simp
  | cons p d ih =>
    intro st
    simp only [List.foldl_cons, List.map_cons, List.flatten]
    rw [ih (p.2.foldl mergeStep st), foldl_mergeStep_count r h1 h2 p.2 st]
    simp only [List.count_append]
    omega

/-- Claim C10: a record whose id is empty and whose lower-cased trimmed title
is empty is never deduplicated: the merge preserves every occurrence of it,
so identical fully-empty-keyed records from any sources all appear. -/
theorem merge_empty_key_records_kept (d : List (String × List PyDict))
    (r : PyDict) (hwf : ∀ p ∈ d, ∀ x ∈ p.2, wfRec x = true)
    (h1 : recId r = "") (h2 : normTitle r = "") :
    (merge_results_from_sources d).count r = ((d.map Prod.snd).flatten).count r := by
  have h := merge_count_aux r h1 h2 d ([], [], [])
  simpa [merge_results_from_sources] using h

/-- Claim C10 witness: the same keyless record in two sources is kept twice. -/
theorem merge_empty_key_records_kept_witness :
    (merge_results_from_sources
        [("a", [[("error", PyVal.vstr "boom")]]),
         ("b", [[("error", PyVal.vstr "boom")]])]).count
        [("error", PyVal.vstr "boom")] =
      (([("a", [[("error", PyVal.vstr "boom")]]),
         ("b", [[("error", PyVal.vstr "boom")]])].map Prod.snd).flatten).count
        [("error", PyVal.vstr "boom")] :=
  merge_empty_key_records_kept
    [("a", [[("error", PyVal.vstr "boom")]]),
     ("b", [[("error", PyVal.vstr "boom")]])]
    [("error", PyVal.vstr "boom")] (by decide) (by decide) (by decide)

/-- Outcome of one adapter invocation inside the aggregator's per-source
`try` block (src/academic_server.py): either the returned list of records,
or a raised exception's message. -/
inductive AdapterOutcome where
  | ok (results : List PyDict)
  | exn (msg : String)

/-- `AVAILABLE_SOURCES = list(adapters.keys())` (src/academic_server.py
lines 27-35): the registry insertion order. -/
def availableSources : List String :=
  ["pubmed", "biorxiv", "medrxiv", "arxiv", "semantic_scholar"]

/-- The `"all"` branch of `search_papers`: invoke every adapter, swallow
exceptions, and record only sources returning a non-empty (truthy) list. -/
def collectAllResults (outcomes : String → AdapterOutcome) :
    List (String × List PyDict) :=
  availableSources.filterMap fun name =>
    match outcomes name with
    | .ok results => if results.isEmpty then none else some (name, results)
    | .exn _ => none

/-- The invalid-selector message of `search_papers`
(src/academic_server.py line 101). -/
def invalidSourceMsg (source : String) : String :=
  "Invalid source '" ++ source ++ "'. Available sources: " ++
    String.intercalate ", " availableSources ++ ", 'all'"

/-- The invalid-selector message of `search_papers_advanced`
(src/academic_server.py line 181). -/
def invalidSourceMsgAdvanced (source : String) : String :=
  "Invalid source '" ++ source ++ "'. Available: " ++
    String.intercalate ", " availableSources ++ ", 'all'"

/-- `search_papers` dispatch (src/academic_server.py lines 67-108), with the
per-adapter call outcomes abstracted as an oracle.  Returns the response list
together with the list of adapters that were invoked. -/
def search_papers (outcomes : String → AdapterOutcome) (source : String) :
    List PyDict × List String :=
  if source = "all" then
    (merge_results_from_sources (collectAllResults outcomes), availableSources)
  else if source ∈ availableSources then
    (match outcomes source with
     | .ok results => results
     | .exn e =>
       [[("error", PyVal.vstr ("An error occurred while searching: " ++ e))]],
     [source])
  else
    ([[("error", PyVal.vstr (invalidSourceMsg source))]], [])

/-- `search_papers_advanced` dispatch (src/academic_server.py lines 140-184),
same shape with its own messages. -/
def search_papers_advanced (outcomes : String → AdapterOutcome)
    (source : String) : List PyDict × List String :=
  if source = "all" then
    (merge_results_from_sources (collectAllResults outcomes), availableSources)
  else if source ∈ availableSources then
    (match outcomes source with
     | .ok results => results
     | .exn e =>
       [[("error", PyVal.vstr ("Error in advanced search: " ++ e))]],
     [source])
  else
    ([[("error", PyVal.vstr (invalidSourceMsgAdvanced source))]], [])

/-- Claim C7: a selector naming neither a registered source nor "all" makes
both dispatch operations return a single-element error result whose message
names the invalid selector and enumerates the valid selectors including
"all", and no adapter is invoked. -/
theorem invalid_source_selector (outcomes : String → AdapterOutcome)
    (source : String) (h1 : source ∉ availableSources) (h2 : source ≠ "all") :
    search_papers outcomes source =
      ([[("error", PyVal.vstr (invalidSourceMsg source))]], []) ∧
    search_papers_advanced outcomes source =
      ([[("error", PyVal.vstr (invalidSourceMsgAdvanced source))]], []) ∧
    invalidSourceMsg source = "Invalid source '" ++ (source ++
      "'. Available sources: pubmed, biorxiv, medrxiv, arxiv, semantic_scholar, 'all'") ∧
    invalidSourceMsgAdvanced source = "Invalid source '" ++ (source ++
      "'. Available: pubmed, biorxiv, medrxiv, arxiv, semantic_scholar, 'all'") := by
  refine ⟨?_, ?_, ?_, ?_⟩
  · simp [search_papers, h1, h2]
  · simp [search_papers_advanced, h1, h2]
  · rw [invalidSourceMsg]
    simp only [String.append_assoc]
    congr 1
  · rw [invalidSourceMsgAdvanced]
    simp only [String.append_assoc]
    congr 1

/-- Claim C7 witness: the selector "nonexistent_source". -/
theorem invalid_source_selector_witness :
    search_papers (fun _ => AdapterOutcome.ok []) "nonexistent_source" =
      ([[("error", PyVal.vstr (invalidSourceMsg "nonexistent_source"))]], []) ∧
    invalidSourceMsg "nonexistent_source" = "Invalid source '" ++
      ("nonexistent_source" ++
       "'. Available sources: pubmed, biorxiv, medrxiv, arxiv, semantic_scholar, 'all'") := by
  obtain ⟨ha, -, hc, -⟩ :=
    invalid_source_selector (fun _ => AdapterOutcome.ok [])
      "nonexistent_source" (by decide) (by decide)
  exact ⟨ha, hc⟩

/-- Claim C2: under the "all" selector every adapter is invoked and runs
independently: every adapter returning a non-empty list contributes its entry
to the per-source mapping whatever the other adapters did, an adapter that
raised contributes nothing, a source yielding zero results is omitted from
the mapping, and every record of the merged response originates in some
successful adapter's result list (no error value leaks into the merge). -/
theorem search_all_fault_isolation (outcomes : String → AdapterOutcome) :
    (search_papers outcomes "all").2 = availableSources ∧
    (∀ name results, name ∈ availableSources →
      outcomes name = .ok results → results ≠ [] →
      (name, results) ∈ collectAllResults outcomes) ∧
    (∀ name msg, outcomes name = .exn msg →
      ∀ results, (name, results) ∉ collectAllResults outcomes) ∧
    (∀ name, outcomes name = .ok [] →
      ∀ results, (name, results) ∉ collectAllResults outcomes) ∧
    (∀ r ∈ (search_papers outcomes "all").1,
      ∃ name results, name ∈ availableSources ∧
        outcomes name = .ok results ∧ r ∈ results) := by
  refine ⟨by simp [search_papers], ?_, ?_, ?_, ?_⟩
  · intro name results hmem hok hne
    apply List.mem_filterMap.mpr
    refine ⟨name, hmem, ?_⟩
    rw [hok]
    simp [hne]
  · intro name msg hexn results hmem
    obtain ⟨a, -, ha⟩ := List.mem_filterMap.mp hmem
    cases hoa : outcomes a with
    | ok rs =>
      rw [hoa] at ha
      by_cases hrs : rs.isEmpty
      · simp [hrs] at ha
      · simp [hrs] at ha
        rw [ha.1] at hoa
        rw [hoa] at hexn
        exact AdapterOutcome.noConfusion hexn
    | exn m =>
      rw [hoa] at ha
      simp at ha
  · intro name hok results hmem
    obtain ⟨a, -, ha⟩ := List.mem_filterMap.mp hmem
    cases hoa : outcomes a with
    | ok rs =>
      rw [hoa] at ha
      by_cases hrs : rs.isEmpty
      · simp [hrs] at ha
      · simp [hrs] at ha
        rw [ha.1, hok] at hoa
        injection hoa with h
        rw [← h] at hrs
        simp at hrs
    | exn m =>
      rw [hoa] at ha
      simp at ha
  · intro r hr
    have hr' : r ∈ merge_results_from_sources (collectAllResults outcomes) := by
      simpa [search_papers] using hr
    have hmem := merge_mem_of_mem (collectAllResults outcomes) ([], [], []) r
      (by simpa [merge_results_from_sources] using hr')
    rcases hmem with hmem | ⟨p, hp, hrp⟩
    · simp at hmem
    · obtain ⟨pn, pr⟩ := p
      obtain ⟨a, hamem, ha⟩ := List.mem_filterMap.mp hp
      cases hoa : outcomes a with
      | ok rs =>
        rw [hoa] at ha
        by_cases hrs : rs.isEmpty
        · simp [hrs] at ha
        · simp [hrs] at ha
          refine ⟨a, rs, hamem, hoa, ?_⟩
          rw [ha.2]
          simpa using hrp
      | exn m =>
        rw [hoa] at ha
        simp at ha

/-- Claim C2 witness: arXiv raising and bioRxiv returning nothing do not stop
PubMed's results from being collected, and neither contributes an entry. -/
theorem search_all_fault_isolation_witness :
    ("pubmed", [[("id", PyVal.vstr "p1")]]) ∈ collectAllResults
      (fun n => if n = "arxiv" then AdapterOutcome.exn "boom"
        else if n = "biorxiv" then AdapterOutcome.ok []
        else AdapterOutcome.ok [[("id", PyVal.vstr "p1")]]) ∧
    (∀ results, ("arxiv", results) ∉ collectAllResults
      (fun n => if n = "arxiv" then AdapterOutcome.exn "boom"
        else if n = "biorxiv" then AdapterOutcome.ok []
        else AdapterOutcome.ok [[("id", PyVal.vstr "p1")]])) ∧
    (∀ results, ("biorxiv", results) ∉ collectAllResults
      (fun n => if n = "arxiv" then AdapterOutcome.exn "boom"
        else if n = "biorxiv" then AdapterOutcome.ok []
        else AdapterOutcome.ok [[("id", PyVal.vstr "p1")]])) := by
  obtain ⟨-, h1, h2, h3, -⟩ := search_all_fault_isolation
    (fun n => if n = "arxiv" then AdapterOutcome.exn "boom"
      else if n = "biorxiv" then AdapterOutcome.ok []
      else AdapterOutcome.ok [[("id", PyVal.vstr "p1")]])
  exact ⟨h1 "pubmed" [[("id", PyVal.vstr "p1")]] (by decide) rfl (by decide),
    h2 "arxiv" "boom" rfl, h3 "biorxiv" rfl⟩

/-- A network request issued by an adapter (the provider-native query the
code builds before calling `requests.get`). -/
inductive NetRequest where
  | arxivQuery (searchQuery : String) (start numResults : Nat)
      (sortBy sortOrder : String)
  | crossrefWorks (query : String) (rows : Nat)
  | biorxivDetails (server dateRange : String) (cursor : Nat)
  | semanticSearch (query : String) (limit : Nat)
      (year venue fieldsOfStudy : Option String)
  | scihubFetchReq (doi : String)
deriving DecidableEq, Repr

/-- Outcome of one `requests.get` call: a raised exception, or a response
with a status code and a body (whose parse either succeeded or raised). -/
inductive HttpOutcome (β : Type) where
  | raise
  | resp (status : Nat) (body : β)

/-- The keyword arguments reaching an adapter's `search_advanced` (the facade
strips unset fields, so an unset field is `none`; `num_results` defaults to
10 via `kwargs.get('num_results', 10)`). -/
structure AdvArgs where
  title : Option String
  author : Option String
  journal : Option String
  abstract : Option String
  category : Option String
  term : Option String
  start_date : Option String
  end_date : Option String
  year : Option String
  venue : Option String
  fields_of_study : Option String
  num_results : Option Nat
deriving DecidableEq, Repr

/-- The all-unset argument set. -/
def emptyAdvArgs : AdvArgs :=
  ⟨none, none, none, none, none, none, none, none, none, none, none, none⟩

/-- Python truthiness of an optional string (`if kwargs.get('title'):`):
`None` and the empty string are falsy. -/
def pyTruthy (o : Option String) : Option String :=
  match o with
  | some s => if s = "" then none else some s
  | none => none

/-- `urllib.parse.quote`: percent-encoding, modelled as the identity on the
query text (the encoding is irrelevant to the verified claims). -/
def quoteUrl (s : String) : String := s

/-- Python's substring operator `needle in hay` on character lists. -/
def strInAux (n : List Char) : List Char → Bool
  | [] => n.isEmpty
  | c :: t => n.isPrefixOf (c :: t) || strInAux n t

/-- Python's substring operator `needle in hay`. -/
def strIn (needle hay : String) : Bool := strInAux needle.data hay.data

/-- A parsed Atom entry of the arXiv feed, as `_parse_arxiv_response`
reads it (src/adapters/arxiv_adapter.py lines 204-245): element texts are
`Option String` (absent element versus its text). -/
structure ArxivCategoryElem where
  term : Option String
deriving DecidableEq, Repr

structure ArxivEntry where
  idUrl : Option String
  title : Option String
  authors : List String
  summary : Option String
  published : Option String
  categoryElem : Option ArxivCategoryElem
deriving DecidableEq, Repr

/-- The record built for one arXiv entry (src/adapters/arxiv_adapter.py
lines 204-245). -/
def arxivEntryToDict (e : ArxivEntry) : PyDict :=
  let arxivId := match e.idUrl with
    | some u => (u.splitOn "/abs/").getLastD ""
    | none => ""
  let category : Option String := match e.categoryElem with
    | some ce => ce.term
    | none => some ""
  [("id", .vstr arxivId),
   ("title", .vstr ((e.title.map pyStrip).getD "")),
   ("authors", .vstr (String.intercalate ", " e.authors)),
   ("abstract", .vstr ((e.summary.map pyStrip).getD "")),
   ("publication_date", .vstr ((e.published.map (fun s => s.take 10)).getD "")),
   ("journal", .vstr ("arXiv preprint (" ++
     (match category with | some c => c | none => "None") ++ ")")),
   ("url", .vstr ("https://arxiv.org/abs/" ++ arxivId)),
   ("pdf_url", .vstr ("https://arxiv.org/pdf/" ++ arxivId ++ ".pdf")),
   ("source", .vstr "arxiv")]

/-- `ArXivAdapter.search_by_keywords` (src/adapters/arxiv_adapter.py lines
22-54): build the `all:` query, issue the request; a non-200 status, a parse
failure or a raised exception yields `[]`, a parsed feed is mapped entry by
entry.  Returns (issued requests, results). -/
def arxivSearchByKeywords (upstream : HttpOutcome (Option (List ArxivEntry)))
    (keywords : String) (numResults : Nat) : List NetRequest × List PyDict :=
  let req := NetRequest.arxivQuery ("all:" ++ quoteUrl keywords) 0 numResults
    "relevance" "descending"
  match upstream with
  | .raise => ([req], [])
  | .resp status body =>
    if status ≠ 200 then ([req], [])
    else match body with
      | none => ([req], [])
      | some entries => ([req], entries.map arxivEntryToDict)

/-- `ArXivAdapter._filter_by_date` (src/adapters/arxiv_adapter.py lines
253-279). -/
def arxivFilterByDate (results : List PyDict)
    (startDate endDate : Option String) : List PyDict :=
  results.filter fun r =>
    let pubDate := getStrD r "publication_date" ""
    !(match pyTruthy startDate with
      | some sd => decide (pubDate < sd)
      | none => false) &&
    !(match pyTruthy endDate with
      | some ed => decide (ed < pubDate)
      | none => false)

/-- `ArXivAdapter.search_advanced` (src/adapters/arxiv_adapter.py lines
56-118): field-prefixed query parts joined with `+AND+`; with no parts and
no `term`, return `[]` before any request; optional client-side date
filtering afterwards. -/
def arxivSearchAdvanced (upstream : HttpOutcome (Option (List ArxivEntry)))
    (a : AdvArgs) : List NetRequest × List PyDict :=
  let queryParts :=
    (match pyTruthy a.title with | some t => ["ti:" ++ quoteUrl t] | none => []) ++
    (match pyTruthy a.author with | some t => ["au:" ++ quoteUrl t] | none => []) ++
    (match pyTruthy a.abstract with | some t => ["abs:" ++ quoteUrl t] | none => []) ++
    (match pyTruthy a.category with | some t => ["cat:" ++ quoteUrl t] | none => [])
  let fullParts : Option (List String) :=
    if queryParts = [] then
      match pyTruthy a.term with
      | some t => some ["all:" ++ quoteUrl t]
      | none => none
    else some queryParts
  match fullParts with
  | none => ([], [])
  | some qp =>
    let searchQuery := String.intercalate "+AND+" qp
    let n := a.num_results.getD 10
    let req := NetRequest.arxivQuery searchQuery 0 n "submittedDate" "descending"
    match upstream with
    | .raise => ([req], [])
    | .resp status body =>
      if status ≠ 200 then ([req], [])
      else match body with
        | none => ([req], [])
        | some entries =>
          let results := entries.map arxivEntryToDict
          let results :=
            if (pyTruthy a.start_date).isSome ∨ (pyTruthy a.end_date).isSome then
              arxivFilterByDate results a.start_date a.end_date
            else results
          ([req], results)

/-- One author object of a Semantic Scholar paper. -/
structure SemAuthor where
  name : Option String
deriving DecidableEq, Repr

/-- A Semantic Scholar paper object as `_format_semantic_result` reads it
(src/adapters/semantic_scholar_adapter.py lines 212-249).  `openAccessPdf`
is `some u` for a truthy dict (with its optional `url`), `none` for an
absent/null/empty one. -/
structure SemanticPaper where
  paperId : Option String
  title : Option String
  abstract : Option String
  authors : List SemAuthor
  year : Option Int
  venue : Option String
  url : Option String
  openAccessPdf : Option (Option String)
  citationCount : Option Int
  referenceCount : Option Int
  fieldsOfStudy : Option (List String)
deriving DecidableEq, Repr

/-- An optional integer passed straight through into the record. -/
def optIntVal : Option Int → PyVal
  | some n => .vint n
  | none => .vnull

/-- `SemanticScholarAdapter._format_semantic_result`
(src/adapters/semantic_scholar_adapter.py lines 212-249). -/
def semanticFormatResult (p : SemanticPaper) : PyDict :=
  let authorsStr := if p.authors.isEmpty then "No authors available"
    else String.intercalate ", " (p.authors.map (fun a => a.name.getD ""))
  let pdfUrl : PyVal := match p.openAccessPdf with
    | some (some u) => .vstr u
    | some none => .vnull
    | none => .vnull
  let paperId := p.paperId.getD ""
  [("id", .vstr paperId),
   ("title", .vstr (p.title.getD "No title available")),
   ("authors", .vstr authorsStr),
   ("abstract", .vstr (p.abstract.getD "No abstract available")),
   ("publication_date", .vstr (match p.year with
     | some y => toString y
     | none => "")),
   ("journal", .vstr (p.venue.getD "")),
   ("url", .vstr (p.url.getD
     ("https://www.semanticscholar.org/paper/" ++ paperId))),
   ("pdf_url", pdfUrl),
   ("source", .vstr "semantic_scholar"),
   ("citation_count", optIntVal p.citationCount),
   ("reference_count", optIntVal p.referenceCount),
   ("fields_of_study", match p.fieldsOfStudy with
     | some xs => .vlistStr xs
     | none => .vnull)]

/-- `SemanticScholarAdapter.search_by_keywords`
(src/adapters/semantic_scholar_adapter.py lines 31-65): `limit` is
`min(num_results, 100)`; non-200 (including 429 rate limits), parse failure
or a raised exception yields `[]`; otherwise every paper of the response is
formatted (no client-side truncation). -/
def semanticSearchByKeywords
    (upstream : HttpOutcome (Option (List SemanticPaper)))
    (keywords : String) (numResults : Nat) : List NetRequest × List PyDict :=
  let req := NetRequest.semanticSearch keywords (min numResults 100)
    none none none
  match upstream with
  | .raise => ([req], [])
  | .resp status body =>
    if status ≠ 200 then ([req], [])
    else match body with
      | none => ([req], [])
      | some papers => ([req], papers.map semanticFormatResult)

/-- `SemanticScholarAdapter.search_advanced`
(src/adapters/semantic_scholar_adapter.py lines 67-140): join truthy
term/title/author into one query (empty: return `[]` before any request),
fetch `min(2*num_results, 100)`, optionally filter by author substring
client-side, and truncate to `num_results`. -/
def semanticSearchAdvanced
    (upstream : HttpOutcome (Option (List SemanticPaper)))
    (a : AdvArgs) : List NetRequest × List PyDict :=
  let queryParts :=
    (match pyTruthy a.term with | some t => [t] | none => []) ++
    (match pyTruthy a.title with | some t => [t] | none => []) ++
    (match pyTruthy a.author with | some t => [t] | none => [])
  if queryParts = [] then ([], [])
  else
    let query := String.intercalate " " queryParts
    let n := a.num_results.getD 10
    let req := NetRequest.semanticSearch query (min (n * 2) 100)
      (pyTruthy a.year) (pyTruthy a.venue) (pyTruthy a.fields_of_study)
    match upstream with
    | .raise => ([req], [])
    | .resp status body =>
      if status ≠ 200 then ([req], [])
      else match body with
        | none => ([req], [])
        | some papers =>
          let results := papers.map semanticFormatResult
          let results := match pyTruthy a.author with
            | some authorQ =>
              results.filter (fun r =>
                strIn (pyLower authorQ) (pyLower (getStrD r "authors" "")))
            | none => results
          ([req], results.take n)

/-- One item of a bioRxiv/medRxiv `details` page, as read with
`item.get(..., "")` (src/adapters/biorxiv_adapter.py lines 214-236). -/
structure BiorxivItem where
  doi : Option String
  title : Option String
  authors : Option String
  abstract : Option String
  date : Option String
deriving DecidableEq, Repr

/-- `BioRxivAdapter._format_biorxiv_result`
(src/adapters/biorxiv_adapter.py lines 214-236). -/
def biorxivFormatResult (server : String) (item : BiorxivItem) : PyDict :=
  let doi := item.doi.getD ""
  [("id", .vstr doi),
   ("title", .vstr (item.title.getD "")),
   ("authors", .vstr (item.authors.getD "")),
   ("abstract", .vstr (item.abstract.getD "")),
   ("publication_date", .vstr (item.date.getD "")),
   ("journal", .vstr (server ++ " (preprint)")),
   ("url", .vstr ("https://www." ++ server ++ ".org/content/" ++ doi)),
   ("pdf_url", .vstr ("https://www." ++ server ++ ".org/content/" ++ doi ++
     "v1.full.pdf")),
   ("source", .vstr server)]

/-- The keyword filter of `search_by_keywords`: case-insensitive substring
match against title or abstract (src/adapters/biorxiv_adapter.py lines 70-74). -/
def biorxivKeywordPred (keywords : String) (item : BiorxivItem) : Bool :=
  let kl := pyLower keywords
  strIn kl (pyLower (item.title.getD "")) ||
    strIn kl (pyLower (item.abstract.getD ""))

/-- The advanced filter: empty queries match everything, otherwise substring
match on title and authors (src/adapters/biorxiv_adapter.py lines 133-136). -/
def biorxivAdvancedPred (a : AdvArgs) (item : BiorxivItem) : Bool :=
  let titleQ := pyLower (a.title.getD "")
  let authorQ := pyLower (a.author.getD "")
  (titleQ = "" || strIn titleQ (pyLower (item.title.getD ""))) &&
  (authorQ = "" || strIn authorQ (pyLower (item.authors.getD "")))

/-- The inner `for item in collection` loop: append each match and break as
soon as `num_results` results are collected
(src/adapters/biorxiv_adapter.py lines 70-77 and 133-141). -/
def collectMatches (pred : BiorxivItem → Bool) (server : String) (n : Nat)
    (acc : List PyDict) : List BiorxivItem → List PyDict
  | [] => acc
  | item :: rest =>
    if pred item then
      let acc' := acc ++ [biorxivFormatResult server item]
      if n ≤ acc'.length then acc' else collectMatches pred server n acc' rest
    else collectMatches pred server n acc rest

/-- Outcome of fetching one `details` page. -/
inductive BiorxivFetch where
  | raise
  | failStatus
  | page (items : List BiorxivItem)

/-- The batched scan loop `while len(all_results) < num_results and
cursor < 10000` shared by both bioRxiv search operations
(src/adapters/biorxiv_adapter.py lines 56-79 and 120-143).  Returns the
cursors of the fetched pages and either the collected results or an abort
(`error`, a raised exception making the adapter return `[]`).  The page is
fetched at `cursor`; a non-200 status or an empty collection breaks the
loop; otherwise the matches are collected and the cursor advances by the
full page length. -/
def biorxivScan (oracle : Nat → BiorxivFetch) (pred : BiorxivItem → Bool)
    (server : String) (n : Nat) (acc : List PyDict) (cursor : Nat) :
    List Nat × Except Unit (List PyDict) :=
  if h : acc.length < n ∧ cursor < 10000 then
    match oracle cursor with
    | .raise => ([cursor], .error ())
    | .failStatus => ([cursor], .ok acc)
    | .page items =>
      if hne : items = [] then ([cursor], .ok acc)
      else
        (cursor :: (biorxivScan oracle pred server n
          (collectMatches pred server n acc items) (cursor + items.length)).1,
         (biorxivScan oracle pred server n
          (collectMatches pred server n acc items) (cursor + items.length)).2)
  else ([], .ok acc)
termination_by 10000 - cursor
decreasing_by
  have h2 := h.2
  have h3 : 0 < items.length := List.length_pos.mpr hne
  omega

/-- `BioRxivAdapter.search_by_keywords` (src/adapters/biorxiv_adapter.py
lines 30-85).  The date range is computed from the wall clock (trailing 365
days) in Python and is a parameter here; it only enters the request URLs. -/
def biorxivSearchByKeywords (oracle : Nat → BiorxivFetch)
    (server dateRange keywords : String) (numResults : Nat) :
    List NetRequest × List PyDict :=
  let scan := biorxivScan oracle (biorxivKeywordPred keywords) server
    numResults [] 0
  (scan.1.map (fun c => NetRequest.biorxivDetails server dateRange c),
   match scan.2 with
   | .error _ => []
   | .ok acc => acc.take numResults)

/-- `BioRxivAdapter.search_advanced` (src/adapters/biorxiv_adapter.py lines
87-149), same loop with the title/author filter; the date range (defaulted
from the clock when unset) is again a parameter. -/
def biorxivSearchAdvanced (oracle : Nat → BiorxivFetch)
    (server dateRange : String) (a : AdvArgs) :
    List NetRequest × List PyDict :=
  let n := a.num_results.getD 10
  let scan := biorxivScan oracle (biorxivAdvancedPred a) server n [] 0
  (scan.1.map (fun c => NetRequest.biorxivDetails server dateRange c),
   match scan.2 with
   | .error _ => []
   | .ok acc => acc.take n)

/-- One CrossRef author object. -/
structure CrossrefAuthor where
  given : Option String
  family : Option String
deriving DecidableEq, Repr

/-- A CrossRef `created` date object. -/
structure CrossrefDate where
  dateParts : List (List Int)
deriving DecidableEq, Repr

/-- One CrossRef work item as the Sci-Hub adapter reads it
(src/adapters/scihub_adapter.py lines 47-67). -/
structure CrossrefItem where
  doi : Option String
  title : List String
  authors : List CrossrefAuthor
  abstract : Option String
  created : Option CrossrefDate
  containerTitle : List String
deriving DecidableEq, Repr

/-- The result of `SciHub.fetch(doi)`: `none` when the fetch failed or was
falsy, otherwise its optional `url`. -/
structure SciHubInfo where
  url : Option String
deriving DecidableEq, Repr

/-- `SciHubAdapter._format_authors` (src/adapters/scihub_adapter.py lines
201-217): at most five names, `" et al."` beyond five, `"N/A"` fallback. -/
def crossrefFormatAuthors (authors : List CrossrefAuthor) : String :=
  if authors.isEmpty then "N/A"
  else
    let names := (authors.take 5).filterMap fun a =>
      let g := a.given.getD ""
      let f := a.family.getD ""
      if g ≠ "" ∨ f ≠ "" then some (pyStrip (g ++ " " ++ f)) else none
    let r := String.intercalate ", " names
    let r := if 5 < authors.length then r ++ " et al." else r
    if r = "" then "N/A" else r

/-- `{n:02d}` of Python string formatting for the month/day fields. -/
def pad2 (n : Int) : String :=
  if 0 ≤ n ∧ n < 10 then "0" ++ toString n else toString n

/-- `SciHubAdapter._format_date` (src/adapters/scihub_adapter.py lines
219-233). -/
def crossrefFormatDate : Option CrossrefDate → String
  | none => "N/A"
  | some d =>
    match d.dateParts with
    | [] => "N/A"
    | parts :: _ =>
      match parts with
      | [] => "N/A"
      | [y] => toString y ++ "-" ++ pad2 1 ++ "-" ++ pad2 1
      | [y, m] => toString y ++ "-" ++ pad2 m ++ "-" ++ pad2 1
      | y :: m :: dd :: _ => toString y ++ "-" ++ pad2 m ++ "-" ++ pad2 dd

/-- The record appended for one matched DOI in
`SciHubAdapter.search_by_keywords` (src/adapters/scihub_adapter.py lines
57-67). -/
def scihubPaperFromItem (item : CrossrefItem) (doi : String)
    (info : SciHubInfo) : PyDict :=
  [("id", .vstr doi),
   ("title", .vstr (match item.title with | [] => "" | t :: _ => t)),
   ("authors", .vstr (crossrefFormatAuthors item.authors)),
   ("abstract", .vstr (item.abstract.getD "N/A")),
   ("publication_date", .vstr (crossrefFormatDate item.created)),
   ("journal", .vstr (match item.containerTitle with
     | [] => "N/A"
     | t :: _ => t)),
   ("url", .vstr ("https://doi.org/" ++ doi)),
   ("pdf_url", .vstr (info.url.getD "")),
   ("source", .vstr "scihub")]

/-- `SciHubAdapter.search_by_keywords` (src/adapters/scihub_adapter.py lines
25-71): with the library unavailable, return the single error record; else
query CrossRef (`rows=num_results`), and for each of the first `num_results`
items with a truthy DOI resolve it through Sci-Hub (`fetchOracle`), emitting
a record only when the resolution succeeds.  A raised exception or a non-200
status leaves `papers` empty. -/
def scihubSearchByKeywords (available : Bool)
    (upstream : HttpOutcome (Option (List CrossrefItem)))
    (fetchOracle : String → Option SciHubInfo)
    (keywords : String) (numResults : Nat) : List NetRequest × List PyDict :=
  if available = false then
    ([], [[("error", PyVal.vstr "Sci-Hub library not available")]])
  else
    let req := NetRequest.crossrefWorks keywords numResults
    match upstream with
    | .raise => ([req], [])
    | .resp status body =>
      if status = 200 then
        match body with
        | none => ([req], [])
        | some items =>
          let picked := items.take numResults
          let fetchReqs := picked.filterMap fun it =>
            (pyTruthy it.doi).map NetRequest.scihubFetchReq
          let papers := picked.filterMap fun it =>
            (pyTruthy it.doi).bind fun doi =>
              (fetchOracle doi).map fun info => scihubPaperFromItem it doi info
          (req :: fetchReqs, papers)
      else ([req], [])

/-- `SciHubAdapter.search_advanced` (src/adapters/scihub_adapter.py lines
73-115): build a CrossRef query from the truthy title/author/journal/term
fields, defaulting to `"research"` when none is set, then delegate to
`search_by_keywords`. -/
def scihubSearchAdvanced (available : Bool)
    (upstream : HttpOutcome (Option (List CrossrefItem)))
    (fetchOracle : String → Option SciHubInfo)
    (a : AdvArgs) : List NetRequest × List PyDict :=
  if available = false then
    ([], [[("error", PyVal.vstr "Sci-Hub library not available")]])
  else
    let queryParts :=
      (match pyTruthy a.title with | some t => ["title:" ++ t] | none => []) ++
      (match pyTruthy a.author with | some t => ["author:" ++ t] | none => []) ++
      (match pyTruthy a.journal with
       | some t => ["container-title:" ++ t]
       | none => []) ++
      (match pyTruthy a.term with | some t => [t] | none => [])
    let query := if queryParts = [] then "research"
      else String.intercalate " " queryParts
    scihubSearchByKeywords available upstream fetchOracle query
      (a.num_results.getD 10)

/-- `PubMedAdapter._format_result` (src/adapters/pubmed_adapter.py lines
134-158): error dictionaries pass through unchanged, otherwise the
provider-native fields are renamed into the canonical shape. -/
def pubmedFormatResult (pm : PyDict) : PyDict :=
  if (pyGet pm "error").isSome then pm
  else
    let pmid := pyGetD pm "PMID" (.vstr "")
    [("id", pmid),
     ("title", pyGetD pm "Title" (.vstr "No title available")),
     ("authors", pyGetD pm "Authors" (.vstr "No authors available")),
     ("abstract", pyGetD pm "Abstract" (.vstr "No abstract available")),
     ("publication_date", pyGetD pm "Publication Date" (.vstr "")),
     ("journal", pyGetD pm "Journal" (.vstr "")),
     ("url", .vstr ("https://pubmed.ncbi.nlm.nih.gov/" ++ pyStrOf pmid ++ "/")),
     ("pdf_url", .vnull),
     ("source", .vstr "pubmed")]

/-- `PubMedAdapter.search_by_keywords` (src/adapters/pubmed_adapter.py lines
26-42): delegate to the `utils.pubmed_utils.search_key_words` collaborator
(absent from src/, abstracted as an outcome) and rename each returned item;
a raised exception yields `[]`. -/
def pubmedSearchByKeywords (collab : Except String (List PyDict)) :
    List PyDict :=
  match collab with
  | .error _ => []
  | .ok results => results.map pubmedFormatResult

/-- `BaseAdapter._format_result` (src/adapters/base_adapter.py lines 76-97). -/
def baseFormatResult (raw : PyDict) (sourceName : String) : PyDict :=
  [("id", pyGetD raw "id" (.vstr "")),
   ("title", pyGetD raw "title" (.vstr "")),
   ("authors", pyGetD raw "authors" (.vstr "")),
   ("abstract", pyGetD raw "abstract" (.vstr "")),
   ("publication_date", pyGetD raw "publication_date" (.vstr "")),
   ("journal", pyGetD raw "journal" (.vstr "")),
   ("url", pyGetD raw "url" (.vstr "")),
   ("pdf_url", pyGetD raw "pdf_url" .vnull),
   ("source", .vstr sourceName)]

/-- The looked-up value exists and is a string. -/
def isStrVal : Option PyVal → Bool
  | some (.vstr _) => true
  | _ => false

/-- The looked-up value exists and is a string or the explicit no-PDF marker
(Python `None`). -/
def isStrOrNullVal : Option PyVal → Bool
  | some (.vstr _) => true
  | some .vnull => true
  | _ => false

/-- The canonical record shape of the spec's data model: the eight string
fields are present with string values and `pdf_url` is present with a string
or the no-PDF marker. -/
def canonicalShape (d : PyDict) : Bool :=
  isStrVal (pyGet d "id") && isStrVal (pyGet d "title") &&
  isStrVal (pyGet d "authors") && isStrVal (pyGet d "abstract") &&
  isStrVal (pyGet d "publication_date") && isStrVal (pyGet d "journal") &&
  isStrVal (pyGet d "url") && isStrOrNullVal (pyGet d "pdf_url") &&
  isStrVal (pyGet d "source")

/-- A key that is absent or holds a string. -/
def strOrAbsent : Option PyVal → Bool
  | some (.vstr _) => true
  | none => true
  | _ => false

/-- A key that is absent or holds a string or `None`. -/
def strNullOrAbsent : Option PyVal → Bool
  | some (.vstr _) => true
  | some .vnull => true
  | none => true
  | _ => false

/-- Well-typed raw input of `BaseAdapter._format_result`: the seven
passthrough keys are absent-or-string and `pdf_url` absent-or-string-or-null
(what the upstream record schemas provide). -/
def wfBaseRaw (raw : PyDict) : Bool :=
  strOrAbsent (pyGet raw "id") && strOrAbsent (pyGet raw "title") &&
  strOrAbsent (pyGet raw "authors") && strOrAbsent (pyGet raw "abstract") &&
  strOrAbsent (pyGet raw "publication_date") &&
  strOrAbsent (pyGet raw "journal") && strOrAbsent (pyGet raw "url") &&
  strNullOrAbsent (pyGet raw "pdf_url")

/-- Well-typed raw input of `PubMedAdapter._format_result`: the collaborator's
provider-native fields are absent-or-string. -/
def wfPubmedRaw (pm : PyDict) : Bool :=
  strOrAbsent (pyGet pm "PMID") && strOrAbsent (pyGet pm "Title") &&
  strOrAbsent (pyGet pm "Authors") && strOrAbsent (pyGet pm "Abstract") &&
  strOrAbsent (pyGet pm "Publication Date") && strOrAbsent (pyGet pm "Journal")

/-- A present string value satisfies the string-field check. -/
theorem isStrVal_vstr (s : String) : isStrVal (some (.vstr s)) = true := rfl

/-- The no-PDF marker satisfies the `pdf_url` check. -/
theorem isStrOrNullVal_vnull : isStrOrNullVal (some .vnull) = true := rfl

/-- A `get` with a string default on an absent-or-string key is a string. -/
theorem getD_isStr (v : Option PyVal) (h : strOrAbsent v = true) (s : String) :
    isStrVal (some (v.getD (.vstr s))) = true := by
  match v with
  | none => rfl
  | some (.vstr t) => rfl
  | some .vnull => simp [strOrAbsent] at h
  | some (.vint n) => simp [strOrAbsent] at h
  | some (.vlistStr xs) => simp [strOrAbsent] at h

/-- A `get` with the `None` default on a well-typed `pdf_url` key is a string
or the marker. -/
theorem getD_isStrOrNull (v : Option PyVal) (h : strNullOrAbsent v = true) :
    isStrOrNullVal (some (v.getD .vnull)) = true := by
  match v with
  | none => rfl
  | some (.vstr t) => rfl
  | some .vnull => rfl
  | some (.vint n) => simp [strNullOrAbsent] at h
  | some (.vlistStr xs) => simp [strNullOrAbsent] at h

/-- Claim C6: every record of every adapter's non-error output has all nine
canonical fields present, with string values except `pdf_url`, which may
instead be the explicit no-PDF marker; extra provider-specific fields
(Semantic Scholar) are appended without removing any core field.  For the two
formatters that pass raw values through (`BaseAdapter._format_result`,
`PubMedAdapter._format_result`) the input is required to be well-typed and,
for PubMed, non-error. -/
theorem adapter_output_canonical_shape :
    (∀ e : ArxivEntry, canonicalShape (arxivEntryToDict e) = true) ∧
    (∀ (server : String) (item : BiorxivItem),
      canonicalShape (biorxivFormatResult server item) = true) ∧
    (∀ p : SemanticPaper, canonicalShape (semanticFormatResult p) = true) ∧
    (∀ (item : CrossrefItem) (doi : String) (info : SciHubInfo),
      canonicalShape (scihubPaperFromItem item doi info) = true) ∧
    (∀ (raw : PyDict) (src : String), wfBaseRaw raw = true →
      canonicalShape (baseFormatResult raw src) = true) ∧
    (∀ pm : PyDict, pyGet pm "error" = none → wfPubmedRaw pm = true →
      canonicalShape (pubmedFormatResult pm) = true) := by
  refine ⟨?_, ?_, ?_, ?_, ?_, ?_⟩
  · intro e
    simp [canonicalShape, arxivEntryToDict, pyGet, isStrVal, isStrOrNullVal]
  · intro server item
    simp [canonicalShape, biorxivFormatResult, pyGet, isStrVal, isStrOrNullVal]
  · intro p
    simp only [canonicalShape, semanticFormatResult, pyGet, List.find?]
    simp [isStrVal, isStrOrNullVal]
    rcases p.openAccessPdf with - | (- | u) <;> simp
  · intro item doi info
    simp [canonicalShape, scihubPaperFromItem, pyGet, isStrVal, isStrOrNullVal]
  · intro raw src h
    simp only [wfBaseRaw, Bool.and_eq_true] at h
    obtain ⟨⟨⟨⟨⟨⟨⟨h1, h2⟩, h3⟩, h4⟩, h5⟩, h6⟩, h7⟩, h8⟩ := h
    simp only [canonicalShape, baseFormatResult, pyGetD, pyGet, List.find?]
    simp only [pyGet] at h1 h2 h3 h4 h5 h6 h7 h8
    simp [getD_isStr _ h1, getD_isStr _ h2, getD_isStr _ h3, getD_isStr _ h4,
      getD_isStr _ h5, getD_isStr _ h6, getD_isStr _ h7,
      getD_isStrOrNull _ h8, isStrVal_vstr]
  · intro pm herr h
    simp only [wfPubmedRaw, Bool.and_eq_true] at h
    obtain ⟨⟨⟨⟨⟨h1, h2⟩, h3⟩, h4⟩, h5⟩, h6⟩ := h
    simp only [pubmedFormatResult, herr, Option.isSome_none, Bool.false_eq_true,
      if_false]
    simp only [canonicalShape, pyGetD, pyGet, List.find?]
    simp only [pyGet] at h1 h2 h3 h4 h5 h6
    simp [getD_isStr _ h1, getD_isStr _ h2, getD_isStr _ h3, getD_isStr _ h4,
      getD_isStr _ h5, getD_isStr _ h6, isStrVal_vstr, isStrOrNullVal_vnull]

/-- Claim C6 witness: concrete instances, including empty raw inputs. -/
theorem adapter_output_canonical_shape_witness :
    canonicalShape (baseFormatResult [] "x") = true ∧
    canonicalShape (pubmedFormatResult [("PMID", PyVal.vstr "7")]) = true := by
  obtain ⟨-, -, -, -, h5, h6⟩ := adapter_output_canonical_shape
  exact ⟨h5 [] "x" (by decide), h6 [("PMID", PyVal.vstr "7")] (by decide) (by decide)⟩

/-- Claim C3 counterexample: with the scihub library unavailable,
`SciHubAdapter.search_by_keywords` returns a single-element error-shaped
list (a dict carrying an "error" key), not an empty sequence
(src/adapters/scihub_adapter.py lines 36-37). -/
theorem scihub_unavailable_error_shaped :
    scihubSearchByKeywords false .raise (fun _ => none) "CRISPR" 10 =
      ([], [[("error", PyVal.vstr "Sci-Hub library not available")]]) ∧
    (pyGet [("error", PyVal.vstr "Sci-Hub library not available")]
      "error").isSome = true := by
  exact ⟨rfl, by decide⟩

/-- Claim C3 as amended: no adapter's `search_by_keywords` propagates an
exception — every upstream HTTP failure, timeout, parse error, rate-limit
rejection or collaborator failure is caught.  For arXiv, Semantic Scholar,
PubMed and Sci-Hub (library available) any such failure yields an empty
sequence; for bioRxiv/medRxiv a raised request aborts the whole operation to
an empty sequence, while a non-200 response merely stops the batched scan at
that page, returning the (possibly non-empty) matches already collected,
capped at `num_results` — so only a failure on the first page yields an
empty sequence.  On a successful Sci-Hub response no emitted record is
error-shaped; the one exception is the Sci-Hub adapter with the scihub
library unavailable, which returns the single error-shaped record instead of
an empty list. -/
theorem search_by_keywords_failure_handling (keywords : String) (n : Nat)
    (f : String → Option SciHubInfo) (st : Nat) (msg : String) :
    (arxivSearchByKeywords .raise keywords n).2 = [] ∧
    (st ≠ 200 → ∀ body,
      (arxivSearchByKeywords (.resp st body) keywords n).2 = []) ∧
    (arxivSearchByKeywords (.resp 200 none) keywords n).2 = [] ∧
    (semanticSearchByKeywords .raise keywords n).2 = [] ∧
    (st ≠ 200 → ∀ body,
      (semanticSearchByKeywords (.resp st body) keywords n).2 = []) ∧
    (semanticSearchByKeywords (.resp 200 none) keywords n).2 = [] ∧
    pubmedSearchByKeywords (.error msg) = [] ∧
    (∀ (oracle : Nat → BiorxivFetch) (pred : BiorxivItem → Bool)
       (server : String) (acc : List PyDict) (cursor : Nat),
      acc.length < n → cursor < 10000 → oracle cursor = .raise →
      biorxivScan oracle pred server n acc cursor = ([cursor], .error ())) ∧
    (∀ (oracle : Nat → BiorxivFetch) (server dr : String),
      (biorxivScan oracle (biorxivKeywordPred keywords) server n [] 0).2 =
        .error () →
      (biorxivSearchByKeywords oracle server dr keywords n).2 = []) ∧
    (∀ (oracle : Nat → BiorxivFetch) (pred : BiorxivItem → Bool)
       (server : String) (acc : List PyDict) (cursor : Nat),
      acc.length < n → cursor < 10000 → oracle cursor = .failStatus →
      biorxivScan oracle pred server n acc cursor = ([cursor], .ok acc)) ∧
    (∀ (oracle : Nat → BiorxivFetch) (server dr : String),
      oracle 0 = .raise ∨ oracle 0 = .failStatus →
      (biorxivSearchByKeywords oracle server dr keywords n).2 = []) ∧
    (scihubSearchByKeywords true .raise f keywords n).2 = [] ∧
    (st ≠ 200 → ∀ body,
      (scihubSearchByKeywords true (.resp st body) f keywords n).2 = []) ∧
    (scihubSearchByKeywords true (.resp 200 none) f keywords n).2 = [] ∧
    (∀ (items : List CrossrefItem) (r : PyDict),
      r ∈ (scihubSearchByKeywords true (.resp 200 (some items)) f
        keywords n).2 → pyGet r "error" = none) ∧
    (∀ up, (scihubSearchByKeywords false up f keywords n).2 =
      [[("error", PyVal.vstr "Sci-Hub library not available")]]) := by
  refine ⟨rfl, ?_, rfl, rfl, ?_, rfl, rfl, ?_, ?_, ?_, ?_, rfl, ?_, rfl, ?_, ?_⟩
  · intro hst body
    simp [arxivSearchByKeywords, hst]
  · intro hst body
    simp [semanticSearchByKeywords, hst]
  · intro oracle pred server acc cursor h1 h2 h3
    rw [biorxivScan, dif_pos ⟨h1, h2⟩, h3]
  · intro oracle server dr h
    simp only [biorxivSearchByKeywords]
    rw [h]
  · intro oracle pred server acc cursor h1 h2 h3
    rw [biorxivScan, dif_pos ⟨h1, h2⟩, h3]
  · intro oracle server dr h0
    simp only [biorxivSearchByKeywords]
    cases n with
    | zero =>
      rw [biorxivScan, dif_neg (by simp)]
      rfl
    | succ m =>
      rcases h0 with h0 | h0
      · rw [biorxivScan, dif_pos (by simp), h0]
      · rw [biorxivScan, dif_pos (by simp), h0]
        rfl
  · intro hst body
    simp [scihubSearchByKeywords, hst]
  · intro items r hr
    have hr' : r ∈ (items.take n).filterMap (fun it =>
        (pyTruthy it.doi).bind fun doi =>
          (f doi).map fun info => scihubPaperFromItem it doi info) := hr
    obtain ⟨it, -, hsome⟩ := List.mem_filterMap.mp hr'
    cases hd : pyTruthy it.doi with
    | none => rw [hd] at hsome; simp at hsome
    | some doi =>
      rw [hd] at hsome
      simp at hsome
      obtain ⟨info, -, hre⟩ := hsome
      rw [← hre]
      simp [scihubPaperFromItem, pyGet]
  · intro up
    rfl

/-- Claim C3 amended-theorem witness: concrete 500-status responses, and a
non-200 page after one collected match stopping the bioRxiv scan with that
match kept. -/
theorem search_by_keywords_failure_handling_witness :
    (arxivSearchByKeywords (.resp 500 none) "t" 5).2 = [] ∧
    (scihubSearchByKeywords true (.resp 500 none) (fun _ => none) "t" 5).2 = [] ∧
    biorxivScan
      (fun c => if c = 0
        then BiorxivFetch.page [⟨some "d", some "t", some "a", some "ab", some "2024"⟩]
        else BiorxivFetch.failStatus)
      (biorxivKeywordPred "t") "biorxiv" 5
      [biorxivFormatResult "biorxiv"
        ⟨some "d", some "t", some "a", some "ab", some "2024"⟩] 1 =
      ([1], .ok [biorxivFormatResult "biorxiv"
        ⟨some "d", some "t", some "a", some "ab", some "2024"⟩]) := by
  obtain ⟨-, h2, -, -, -, -, -, -, -, hstop, -, -, h13, -, -, -⟩ :=
    search_by_keywords_failure_handling "t" 5 (fun _ => none) 500 "boom"
  refine ⟨h2 (by decide) none, h13 (by decide) none, ?_⟩
  exact hstop
    (fun c => if c = 0
      then BiorxivFetch.page [⟨some "d", some "t", some "a", some "ab", some "2024"⟩]
      else BiorxivFetch.failStatus)
    (biorxivKeywordPred "t") "biorxiv"
    [biorxivFormatResult "biorxiv"
      ⟨some "d", some "t", some "a", some "ab", some "2024"⟩] 1
    (by decide) (by decide) rfl

/-- Claim C4 counterexample: `SciHubAdapter.search_advanced` with zero
mappable fields does not return an empty sequence without a network call —
it substitutes the default query "research" and issues a CrossRef request
(src/adapters/scihub_adapter.py lines 101-115). -/
theorem scihub_advanced_default_query_network :
    (scihubSearchAdvanced true (.resp 200 (some [])) (fun _ => none)
      emptyAdvArgs).1 = [NetRequest.crossrefWorks "research" 10] ∧
    (scihubSearchAdvanced true (.resp 200 (some [])) (fun _ => none)
      emptyAdvArgs).1 ≠ [] := by
  exact ⟨rfl, by decide⟩

/-- Claim C4 as amended: with zero fields the provider can map into its
native query, arXiv and Semantic Scholar return an empty sequence without
issuing any network request; Sci-Hub instead substitutes the default query
"research" and performs its CrossRef keyword search; and bioRxiv/medRxiv
ignores the absence of filter fields, fetching its date-bounded listing
anyway (whenever at least one result is wanted). -/
theorem search_advanced_zero_fields (a : AdvArgs)
    (upA : HttpOutcome (Option (List ArxivEntry)))
    (upS : HttpOutcome (Option (List SemanticPaper)))
    (upC : HttpOutcome (Option (List CrossrefItem)))
    (f : String → Option SciHubInfo)
    (oracle : Nat → BiorxivFetch) (server dr : String) :
    (pyTruthy a.title = none → pyTruthy a.author = none →
      pyTruthy a.abstract = none → pyTruthy a.category = none →
      pyTruthy a.term = none → arxivSearchAdvanced upA a = ([], [])) ∧
    (pyTruthy a.term = none → pyTruthy a.title = none →
      pyTruthy a.author = none → semanticSearchAdvanced upS a = ([], [])) ∧
    (pyTruthy a.title = none → pyTruthy a.author = none →
      pyTruthy a.journal = none → pyTruthy a.term = none →
      scihubSearchAdvanced true upC f a =
        scihubSearchByKeywords true upC f "research"
          (a.num_results.getD 10)) ∧
    (1 ≤ a.num_results.getD 10 →
      (biorxivSearchAdvanced oracle server dr a).1 ≠ []) := by
  refine ⟨?_, ?_, ?_, ?_⟩
  · intro h1 h2 h3 h4 h5
    simp [arxivSearchAdvanced, h1, h2, h3, h4, h5]
  · intro h1 h2 h3
    simp [semanticSearchAdvanced, h1, h2, h3]
  · intro h1 h2 h3 h4
    simp [scihubSearchAdvanced, h1, h2, h3, h4]
  · intro hn
    simp only [biorxivSearchAdvanced]
    rw [biorxivScan, dif_pos (by simp only [List.length_nil]; omega)]
    split
    · simp
    · simp
    · split <;> simp

/-- Claim C4 amended-theorem witness: all-unset arguments. -/
theorem search_advanced_zero_fields_witness :
    arxivSearchAdvanced (.resp 200 (some [])) emptyAdvArgs = ([], []) ∧
    semanticSearchAdvanced (.resp 200 (some [])) emptyAdvArgs = ([], []) ∧
    (biorxivSearchAdvanced (fun _ => BiorxivFetch.failStatus) "biorxiv" "d"
      emptyAdvArgs).1 ≠ [] := by
  obtain ⟨h1, h2, -, h4⟩ := search_advanced_zero_fields emptyAdvArgs
    (.resp 200 (some [])) (.resp 200 (some [])) (.resp 200 (some []))
    (fun _ => none) (fun _ => BiorxivFetch.failStatus) "biorxiv" "d"
  exact ⟨h1 rfl rfl rfl rfl rfl, h2 rfl rfl rfl, h4 (by decide)⟩

/-- Claim C5 counterexample: arXiv's `search_by_keywords` performs no
client-side truncation (src/adapters/arxiv_adapter.py lines 33-54,
186-251): a feed carrying two entries against `num_results = 1` yields two
records. -/
theorem arxiv_over_delivery_exceeds_cap :
    1 < (arxivSearchByKeywords
      (.resp 200 (some [⟨none, none, [], none, none, none⟩,
        ⟨none, none, [], none, none, none⟩])) "q" 1).2.length := by
  decide

/-- The Sci-Hub keyword search caps its output at `num_results` client-side
whatever the upstream returned. -/
theorem scihubSearch_len_le (up : HttpOutcome (Option (List CrossrefItem)))
    (f : String → Option SciHubInfo) (kw : String) (n : Nat) :
    (scihubSearchByKeywords true up f kw n).2.length ≤ n := by
  cases up with
  | raise => simp [scihubSearchByKeywords]
  | resp st body =>
    by_cases hst : st = 200
    · subst hst
      cases body with
      | none => simp [scihubSearchByKeywords]
      | some items =>
        have he : (scihubSearchByKeywords true (.resp 200 (some items))
            f kw n).2 = (items.take n).filterMap (fun it =>
              (pyTruthy it.doi).bind fun doi =>
                (f doi).map fun info => scihubPaperFromItem it doi info) := rfl
        rw [he]
        exact le_trans (List.length_filterMap_le _ _)
          (by simpa using List.length_take_le n items)
    · simp [scihubSearchByKeywords, hst]

/-- Claim C5 as amended: bioRxiv/medRxiv (both operations), Sci-Hub (both
operations, library available) and Semantic Scholar's `search_advanced`
truncate client-side and never return more than `n` records for any upstream
behaviour; arXiv (both operations), Semantic Scholar's `search_by_keywords`
and PubMed's keyword search emit one record per upstream/collaborator item
without truncation, so they respect the cap exactly when the upstream
returns at most `n` items (the issued requests do ask for at most `n`:
`max_results = n`, `limit = min(n, 100)`). -/
theorem search_result_cap (oracle : Nat → BiorxivFetch)
    (server dr keywords : String) (n : Nat) (a : AdvArgs)
    (upC : HttpOutcome (Option (List CrossrefItem)))
    (f : String → Option SciHubInfo) (rs : List PyDict) :
    (biorxivSearchByKeywords oracle server dr keywords n).2.length ≤ n ∧
    (biorxivSearchAdvanced oracle server dr a).2.length ≤
      a.num_results.getD 10 ∧
    (scihubSearchByKeywords true upC f keywords n).2.length ≤ n ∧
    (scihubSearchAdvanced true upC f a).2.length ≤ a.num_results.getD 10 ∧
    (∀ upS : HttpOutcome (Option (List SemanticPaper)),
      (semanticSearchAdvanced upS a).2.length ≤ a.num_results.getD 10) ∧
    (∀ entries : List ArxivEntry, entries.length ≤ n →
      (arxivSearchByKeywords (.resp 200 (some entries))
        keywords n).2.length ≤ n) ∧
    (∀ entries : List ArxivEntry,
      entries.length ≤ a.num_results.getD 10 →
      (arxivSearchAdvanced (.resp 200 (some entries)) a).2.length ≤
        a.num_results.getD 10) ∧
    (∀ papers : List SemanticPaper, papers.length ≤ n →
      (semanticSearchByKeywords (.resp 200 (some papers))
        keywords n).2.length ≤ n) ∧
    (rs.length ≤ n → (pubmedSearchByKeywords (.ok rs)).length ≤ n) := by
  refine ⟨?_, ?_, scihubSearch_len_le upC f keywords n, ?_, ?_, ?_, ?_, ?_, ?_⟩
  · simp only [biorxivSearchByKeywords]
    cases (biorxivScan oracle (biorxivKeywordPred keywords) server
        n [] 0).2 with
    | error e => simp
    | ok acc => simp [List.length_take]
  · simp only [biorxivSearchAdvanced]
    cases (biorxivScan oracle (biorxivAdvancedPred a) server
        (a.num_results.getD 10) [] 0).2 with
    | error e => simp
    | ok acc => simp [List.length_take]
  · exact scihubSearch_len_le upC f _ _
  · intro upS
    simp only [semanticSearchAdvanced]
    split
    · simp
    · split
      · simp
      · split
        · simp
        · split
          · simp
          · simp [List.length_take]
  · intro entries he
    simpa [arxivSearchByKeywords] using he
  · intro entries he
    simp only [arxivSearchAdvanced]
    split
    · simp
    · split
      · simp
      · split
        · refine le_trans ?_ he
          simp only [arxivFilterByDate]
          exact le_trans (List.length_filter_le _ _) (le_of_eq (by simp))
        · simpa using he
  · intro papers hp
    simpa [semanticSearchByKeywords] using hp
  · intro h
    simpa [pubmedSearchByKeywords] using h

/-- Claim C5 amended-theorem witness: concrete instances. -/
theorem search_result_cap_witness :
    (biorxivSearchByKeywords (fun _ => BiorxivFetch.failStatus) "biorxiv"
      "d" "q" 5).2.length ≤ 5 ∧
    (arxivSearchByKeywords (.resp 200 (some ([] : List ArxivEntry)))
      "q" 5).2.length ≤ 5 := by
  obtain ⟨h1, -, -, -, -, h6, -, -, -⟩ := search_result_cap
    (fun _ => BiorxivFetch.failStatus) "biorxiv" "d" "q" 5 emptyAdvArgs
    (.resp 200 (some [])) (fun _ => none) []
  exact ⟨h1, h6 [] (by decide)⟩

/-- Bounds of the scan loop: every fetched cursor lies in `[cursor, 10000)`
and at most `10000 - cursor` pages are fetched (the cursor strictly grows by
at least one per non-empty page). -/
theorem biorxivScan_bounds (oracle : Nat → BiorxivFetch)
    (pred : BiorxivItem → Bool) (server : String) :
    ∀ (fuel n : Nat) (acc : List PyDict) (cursor : Nat),
    10000 - cursor ≤ fuel →
    (∀ c ∈ (biorxivScan oracle pred server n acc cursor).1,
      cursor ≤ c ∧ c < 10000) ∧
    (biorxivScan oracle pred server n acc cursor).1.length ≤ 10000 - cursor := by
  intro fuel
  induction fuel with
  | zero =>
    intro n acc cursor hf
    have hg : ¬(acc.length < n ∧ cursor < 10000) := by omega
    rw [biorxivScan, dif_neg hg]
    simp
  | succ f ih =>
    intro n acc cursor hf
    by_cases hg : acc.length < n ∧ cursor < 10000
    · rw [biorxivScan, dif_pos hg]
      cases ho : oracle cursor with
      | raise =>
        constructor
        · intro c hc
          simp at hc
          omega
        · simp
          omega
      | failStatus =>
        constructor
        · intro c hc
          simp at hc
          omega
        · simp
          omega
      | page items =>
        dsimp only
        by_cases hne : items = []
        · rw [dif_pos hne]
          constructor
          · intro c hc
            simp at hc
            omega
          · simp
            omega
        · rw [dif_neg hne]
          have hlen : 0 < items.length := List.length_pos.mpr hne
          obtain ⟨ih1, ih2⟩ := ih n (collectMatches pred server n acc items)
            (cursor + items.length) (by omega)
          constructor
          · intro c hc
            simp only [List.mem_cons] at hc
            rcases hc with hc | hc
            · omega
            · have := ih1 c hc
              omega
          · simp only [List.length_cons]
            omega
    · rw [biorxivScan, dif_neg hg]
      simp

/-- Claim C8: the bioRxiv/medRxiv batched client-side scan always
terminates: the loop fetches pages only at cursors below the 10000-record
safety ceiling, fetches at most 10000 pages (each non-empty page advances
the cursor), performs no fetch at all once `num_results` results are
already collected, and each wrapper issues at most 10000 page requests
whatever the upstream does. -/
theorem biorxiv_scan_terminates (oracle : Nat → BiorxivFetch)
    (pred : BiorxivItem → Bool) (server dr keywords : String)
    (n : Nat) (a : AdvArgs) :
    (∀ (acc : List PyDict) (cursor : Nat),
      (∀ c ∈ (biorxivScan oracle pred server n acc cursor).1,
        cursor ≤ c ∧ c < 10000) ∧
      (biorxivScan oracle pred server n acc cursor).1.length ≤
        10000 - cursor ∧
      (n ≤ acc.length →
        biorxivScan oracle pred server n acc cursor = ([], .ok acc))) ∧
    (biorxivSearchByKeywords oracle server dr keywords n).1.length ≤ 10000 ∧
    (biorxivSearchAdvanced oracle server dr a).1.length ≤ 10000 := by
  refine ⟨?_, ?_, ?_⟩
  · intro acc cursor
    obtain ⟨h1, h2⟩ := biorxivScan_bounds oracle pred server
      (10000 - cursor) n acc cursor (le_refl _)
    refine ⟨h1, h2, ?_⟩
    intro hacc
    rw [biorxivScan, dif_neg (by omega)]
  · simp only [biorxivSearchByKeywords]
    have h := (biorxivScan_bounds oracle (biorxivKeywordPred keywords)
      server 10000 n [] 0 (by omega)).2
    simpa using h
  · simp only [biorxivSearchAdvanced]
    have h := (biorxivScan_bounds oracle (biorxivAdvancedPred a)
      server 10000 (a.num_results.getD 10) [] 0 (by omega)).2
    simpa using h

/-- Claim C8 witness: with enough results already collected the loop stops
immediately, and a concrete keyword search fetches at most 10000 pages. -/
theorem biorxiv_scan_terminates_witness :
    biorxivScan (fun _ => BiorxivFetch.page [⟨none, none, none, none, none⟩])
      (fun _ => true) "biorxiv" 0 [] 0 = ([], .ok []) ∧
    (biorxivSearchByKeywords
      (fun _ => BiorxivFetch.page [⟨none, none, none, none, none⟩])
      "biorxiv" "d" "q" 0).1.length ≤ 10000 := by
  obtain ⟨h1, h2, -⟩ := biorxiv_scan_terminates
    (fun _ => BiorxivFetch.page [⟨none, none, none, none, none⟩])
    (fun _ => true) "biorxiv" "d" "q" 0 emptyAdvArgs
  exact ⟨(h1 [] 0).2.2 (by decide), h2⟩
